import Mathlib

/-!
Verification of the service lifecycle controller of ducconit/gocore
(src/service/http/rest.go and the HTTP option file).

The controller is `HTTPService`: a struct holding a `started` boolean guarded
by a mutex, a `stopChan` signal channel allocated once in `NewHTTPService`,
and an underlying `http.Server`.  Its public operations are
`StartDaemon` (called `Start` in one variant), `Stop` and `Health`.

The embedding below is a faithful shallow model of the sequential semantics
of those methods: every lock-protected critical section of the Go code is one
atomic step here.  Goroutine bodies (the serving loop and the watcher) are
modelled as separate functions, since the Go code runs them asynchronously
after `StartDaemon` has already returned.  A Go method call either returns an
ordinary `error` value (`Option String`, `none` = nil) together with the
updated receiver, or hits a runtime panic; `GoResult` distinguishes the two.
-/

namespace GoCore

/-- Result of calling a Go method on the service: a normal return carrying the
Go error value (`none` is a nil error) and the updated receiver state, or a
runtime panic with its message. -/
inductive GoResult (σ : Type) where
  | ret : Option String → σ → GoResult σ
  | panicked : String → GoResult σ
deriving DecidableEq, Repr

/-- The receiver state of `HTTPService` (rest.go lines 18-27), restricted to
the fields the lifecycle touches, plus observables for the resources:
`stopChanGen` is the allocation generation of the `stopChan` field (0 is the
channel made in `NewHTTPService`; it would change only if some operation
re-made the channel), `stopChanClosed` records whether that channel has been
closed, `serveTasks` and `watcherTasks` count the goroutines spawned at
rest.go lines 67 and 85, `listenerBound` tracks whether the server's listener
is currently bound, and `shutdownRequested` whether `server.Shutdown` was
invoked. -/
structure HTTPService where
  name : String
  addr : String
  hasHandler : Bool
  started : Bool
  stopChanGen : Nat
  stopChanClosed : Bool
  serveTasks : Nat
  watcherTasks : Nat
  listenerBound : Bool
  shutdownRequested : Bool
deriving DecidableEq, Repr

/-- The `HTTPOption` constructors of the option file: `WithAddr`/`WithAddress`,
`WithHandler`, `WithLogger`.  Each mutates exactly one configuration field. -/
inductive HTTPOption where
  | withAddr : String → HTTPOption
  | withHandler : HTTPOption
  | withLogger : HTTPOption
deriving DecidableEq, Repr

/-- Application of one `HTTPOption` to the service under construction.
`WithLogger` only replaces the logger collaborator, which the lifecycle state
does not observe. -/
def applyOption (s : HTTPService) : HTTPOption → HTTPService
  | .withAddr a => { s with addr := a }
  | .withHandler => { s with hasHandler := true }
  | .withLogger => s

/-- `NewHTTPService` (rest.go lines 30-54): the struct literal sets the name,
the default address ":3000" and a freshly made `stopChan` (generation 0, not
closed), then the options are applied in order, then the `http.Server` is
created.  No goroutine runs and nothing is bound yet. -/
def newHTTPService (name : String) (opts : List HTTPOption) : HTTPService :=
  opts.foldl applyOption
    { name := name
      addr := ":3000"
      hasHandler := false
      started := false
      stopChanGen := 0
      stopChanClosed := false
      serveTasks := 0
      watcherTasks := 0
      listenerBound := false
      shutdownRequested := false }

/-- `HTTPService.StartDaemon` (rest.go lines 57-95), the part the caller
executes: under the lock, if `started` it returns the "already started" error
and does nothing else; otherwise it sets `started`, unlocks, spawns the
serving goroutine (line 67) and the watcher goroutine (line 85) and returns a
nil error.  The bind attempt happens later, inside the serving goroutine
(`serveTask`), and its outcome is never observed here. -/
def startDaemon (s : HTTPService) : GoResult HTTPService :=
  if s.started then
    .ret (some ("service " ++ s.name ++ " already started")) s
  else
    .ret none
      { s with
        started := true
        serveTasks := s.serveTasks + 1
        watcherTasks := s.watcherTasks + 1 }

/-- Body of the serving goroutine spawned by `StartDaemon` (rest.go lines
67-82): `ListenAndServe` binds the listener; on bind failure (or on
`ErrServerClosed`) the error is only logged — nothing is returned to any
caller and no state other than the bound listener changes. -/
def serveTask (bindOk : Bool) (s : HTTPService) : HTTPService :=
  if bindOk then { s with listenerBound := true } else s

/-- The state a successful pass through `Stop`'s body leaves behind
(rest.go lines 126-139): `started` cleared, the stop channel closed, the
graceful shutdown requested and the listener no longer bound (`Shutdown`
closes the open listeners even when it then fails or times out). -/
def stoppedFrom (s : HTTPService) : HTTPService :=
  { s with
    started := false
    stopChanClosed := true
    shutdownRequested := true
    listenerBound := false }

/-- `HTTPService.Stop` (rest.go lines 120-144): under the lock, if not
`started` it returns the "not started" error with no side effect; otherwise
it clears `started`, unlocks, and executes `close(s.stopChan)` — which is a
runtime panic when that channel is already closed — then requests the bounded
graceful shutdown of the server.  A shutdown failure is wrapped in the
returned error; either way the listener is closed and `started` stays false.
`shutdownErr` is the environment's outcome of `server.Shutdown`.  (In the Go
code `started` is cleared before the close; since a panic aborts the
execution, checking the channel before building the final state is
equivalent.) -/
def stop (shutdownErr : Option String) (s : HTTPService) : GoResult HTTPService :=
  if !s.started then
    .ret (some ("service " ++ s.name ++ " not started")) s
  else if s.stopChanClosed then
    .panicked "close of closed channel"
  else
    match shutdownErr with
    | some cause =>
        .ret (some ("error shutting down service " ++ s.name ++ ": " ++ cause))
          (stoppedFrom s)
    | none => .ret none (stoppedFrom s)

/-- `HTTPService.Health` (rest.go lines 147-156): reads `started` under the
read lock and returns nil iff it is set; the receiver is returned untouched
in either branch. -/
def health (s : HTTPService) : GoResult HTTPService :=
  if !s.started then
    .ret (some ("service " ++ s.name ++ " is not running")) s
  else
    .ret none s

/-- Effect of triggering the external cancellation signal, through the
watcher goroutine spawned by `StartDaemon` (rest.go lines 85-92).  The
watcher selects between `ctx.Done()` and `s.stopChan`: while the stop
channel is open the watcher is waiting, so the cancellation wins the select
and the watcher invokes `s.Stop(context.Background())` — the same `Stop`
method an explicit caller would use, its returned error discarded.  Once the
stop channel is closed, any watcher has already taken the channel arm and
returned (line 90) — in particular the watcher spawned by a restarting Start
exits immediately on the already-closed channel — so triggering the
cancellation then does nothing: no `Stop` call, no state change. -/
def onExternalCancel (shutdownErr : Option String) (s : HTTPService) : GoResult HTTPService :=
  if s.stopChanClosed then
    .ret none s
  else
    stop shutdownErr s

/-- The state carried by a normal return; a panic carries none. -/
def GoResult.state? {σ : Type} : GoResult σ → Option σ
  | .ret _ st => some st
  | .panicked _ => none

/-- Whether the call ended in a runtime panic. -/
def GoResult.isPanic {σ : Type} : GoResult σ → Bool
  | .ret _ _ => false
  | .panicked _ => true

/-- One externally triggerable event of a controller's lifetime: a public
call (`StartDaemon`, `Stop`, `Health`), the firing of the external
cancellation signal, or the asynchronous serving goroutine running its bind
attempt with the given outcome. -/
inductive Event where
  | startCall : Event
  | stopCall : Option String → Event
  | healthCall : Event
  | cancelFired : Option String → Event
  | serveRan : Bool → Event
deriving DecidableEq, Repr

/-- Apply one event to the controller state. -/
def step (s : HTTPService) : Event → GoResult HTTPService
  | .startCall => startDaemon s
  | .stopCall e => stop e s
  | .healthCall => health s
  | .cancelFired e => onExternalCancel e s
  | .serveRan b => .ret none (serveTask b s)

/-- Run a whole sequence of events from a state, threading the state through
normal returns (error values are observed but do not stop the caller) and
aborting at the first panic, as a Go program would. -/
def run (s : HTTPService) : List Event → GoResult HTTPService
  | [] => .ret none s
  | ev :: evs =>
    match step s ev with
    | .panicked m => .panicked m
    | .ret _ s' => run s' evs

/-- The Go error value a normal return carries (`some none` = returned a nil
error, `some (some m)` = returned the error m); a panic carries no value. -/
def GoResult.err? {σ : Type} : GoResult σ → Option (Option String)
  | .ret e _ => some e
  | .panicked _ => none

/-- Run a sequence of events and collect the Go error value each call
returned, in order, together with the final state; `none` when some call in
the sequence panicked instead of returning. -/
def runErrs (s : HTTPService) : List Event → Option (List (Option String) × HTTPService)
  | [] => some ([], s)
  | ev :: evs =>
    match step s ev with
    | .panicked _ => none
    | .ret e s' => (runErrs s' evs).map (fun p => (e :: p.1, p.2))

/-- A concrete controller in the Running state: the "api" service right after
its first successful `StartDaemon` and after the serving goroutine bound the
listener. -/
def runningApi : HTTPService :=
  { name := "api"
    addr := ":3000"
    hasHandler := false
    started := true
    stopChanGen := 0
    stopChanClosed := false
    serveTasks := 1
    watcherTasks := 1
    listenerBound := true
    shutdownRequested := false }

/-- A concrete controller after its first successful StartDaemon - Stop
cycle: the "api" service in the Stopped state with its one stop channel
already closed. -/
def stoppedApi : HTTPService :=
  { name := "api"
    addr := ":3000"
    hasHandler := false
    started := false
    stopChanGen := 0
    stopChanClosed := true
    serveTasks := 1
    watcherTasks := 1
    listenerBound := false
    shutdownRequested := true }

/-- The concrete "api" controller after Start - Stop - Start: started again,
but still holding the original, already-closed stop channel. -/
def restartedApi : HTTPService :=
  { stoppedApi with started := true, serveTasks := 2, watcherTasks := 2 }

/-! Helper lemmas about the constructor and the individual operations. -/

/-- No option constructor touches the lifecycle fields: the started flag, the
stop channel or the task counters. -/
theorem applyOption_lifecycle (s : HTTPService) (o : HTTPOption) :
    (applyOption s o).started = s.started
    ∧ (applyOption s o).stopChanGen = s.stopChanGen
    ∧ (applyOption s o).stopChanClosed = s.stopChanClosed
    ∧ (applyOption s o).serveTasks = s.serveTasks
    ∧ (applyOption s o).watcherTasks = s.watcherTasks := by
  cases o <;> exact ⟨rfl, rfl, rfl, rfl, rfl⟩

/-- Folding any list of options over a state leaves the lifecycle fields of
that state unchanged. -/
theorem foldl_applyOption_lifecycle (opts : List HTTPOption) (s : HTTPService) :
    (opts.foldl applyOption s).started = s.started
    ∧ (opts.foldl applyOption s).stopChanGen = s.stopChanGen
    ∧ (opts.foldl applyOption s).stopChanClosed = s.stopChanClosed
    ∧ (opts.foldl applyOption s).serveTasks = s.serveTasks
    ∧ (opts.foldl applyOption s).watcherTasks = s.watcherTasks := by
  induction opts generalizing s with
  | nil => exact ⟨rfl, rfl, rfl, rfl, rfl⟩
  | cons o opts ih =>
    obtain ⟨h1, h2, h3, h4, h5⟩ := ih (applyOption s o)
    obtain ⟨g1, g2, g3, g4, g5⟩ := applyOption_lifecycle s o
    exact ⟨h1.trans g1, h2.trans g2, h3.trans g3, h4.trans g4, h5.trans g5⟩

/-- A freshly constructed service, whatever its options, is not started, owns
the generation-0 stop channel, unclosed, and has spawned no task. -/
theorem newHTTPService_lifecycle (nm : String) (opts : List HTTPOption) :
    (newHTTPService nm opts).started = false
    ∧ (newHTTPService nm opts).stopChanGen = 0
    ∧ (newHTTPService nm opts).stopChanClosed = false
    ∧ (newHTTPService nm opts).serveTasks = 0
    ∧ (newHTTPService nm opts).watcherTasks = 0 :=
  foldl_applyOption_lifecycle opts
    { name := nm
      addr := ":3000"
      hasHandler := false
      started := false
      stopChanGen := 0
      stopChanClosed := false
      serveTasks := 0
      watcherTasks := 0
      listenerBound := false
      shutdownRequested := false }

/-- Any normal return of StartDaemon leaves the stop channel exactly as it
was: same allocation, same closed-ness. -/
theorem startDaemon_ret_stopChan (s : HTTPService) (e : Option String)
    (s' : HTTPService) (h : startDaemon s = .ret e s') :
    s'.stopChanGen = s.stopChanGen ∧ s'.stopChanClosed = s.stopChanClosed := by
  unfold startDaemon at h
  split at h <;> injection h with h1 h2 <;> subst h2 <;> exact ⟨rfl, rfl⟩

/-- Any normal return of Stop keeps the stop channel allocation and never
un-closes the channel. -/
theorem stop_ret_stopChan (e0 : Option String) (s : HTTPService)
    (e : Option String) (s' : HTTPService) (h : stop e0 s = .ret e s') :
    s'.stopChanGen = s.stopChanGen
    ∧ (s.stopChanClosed = true → s'.stopChanClosed = true) := by
  unfold stop at h
  split at h
  · injection h with h1 h2; subst h2; exact ⟨rfl, fun hc => hc⟩
  · split at h
    · exact GoResult.noConfusion h
    · cases e0 <;> injection h with h1 h2 <;> subst h2 <;>
        exact ⟨rfl, fun hc => rfl⟩

/-- Health returns its receiver unchanged. -/
theorem health_ret_id (s : HTTPService) (e : Option String) (s' : HTTPService)
    (h : health s = .ret e s') : s' = s := by
  unfold health at h
  split at h <;> injection h with h1 h2 <;> exact h2.symm

/-- The serving goroutine touches only the bound-listener observable. -/
theorem serveTask_stopChan (b : Bool) (s : HTTPService) :
    (serveTask b s).stopChanGen = s.stopChanGen
    ∧ (serveTask b s).stopChanClosed = s.stopChanClosed
    ∧ (serveTask b s).started = s.started := by
  cases b <;> exact ⟨rfl, rfl, rfl⟩

/-- Any normal return of any single event keeps the stop channel allocation
and never un-closes the channel. -/
theorem step_ret_stopChan (s : HTTPService) (ev : Event) (e : Option String)
    (s' : HTTPService) (h : step s ev = .ret e s') :
    s'.stopChanGen = s.stopChanGen
    ∧ (s.stopChanClosed = true → s'.stopChanClosed = true) := by
  cases ev with
  | startCall =>
    obtain ⟨h1, h2⟩ := startDaemon_ret_stopChan s e s' h
    exact ⟨h1, fun hc => h2.trans hc⟩
  | stopCall e0 => exact stop_ret_stopChan e0 s e s' h
  | healthCall =>
    have := health_ret_id s e s' h
    subst this
    exact ⟨rfl, fun hc => hc⟩
  | cancelFired e0 =>
    have h' : onExternalCancel e0 s = .ret e s' := h
    unfold onExternalCancel at h'
    split at h'
    · injection h' with h1 h2
      subst h2
      exact ⟨rfl, fun hc => hc⟩
    · exact stop_ret_stopChan e0 s e s' h'
  | serveRan b =>
    injection h with h1 h2
    subst h2
    obtain ⟨g1, g2, g3⟩ := serveTask_stopChan b s
    exact ⟨g1, fun hc => g2.trans hc⟩

/-- Over a whole event sequence ending in a normal state, the stop channel
allocation is preserved and closed-ness is monotone. -/
theorem run_stopChan (evs : List Event) (s s' : HTTPService)
    (h : (run s evs).state? = some s') :
    s'.stopChanGen = s.stopChanGen
    ∧ (s.stopChanClosed = true → s'.stopChanClosed = true) := by
  induction evs generalizing s with
  | nil =>
    simp only [run, GoResult.state?, Option.some.injEq] at h
    subst h
    exact ⟨rfl, fun hc => hc⟩
  | cons ev evs ih =>
    rw [run] at h
    cases hst : step s ev with
    | panicked m =>
      rw [hst] at h
      exact absurd h (by simp [GoResult.state?])
    | ret e s1 =>
      rw [hst] at h
      obtain ⟨h1, h2⟩ := ih s1 h
      obtain ⟨g1, g2⟩ := step_ret_stopChan s ev e s1 hst
      exact ⟨h1.trans g1, fun hc => h2 (g2 hc)⟩

/-! The claims. -/

/-- C1: the spec claims that Start, Stop, Start, Stop, each invoked in the
legal state, succeeds every time — restart is supported.  On the code this
fails: for the concrete "api" controller the first three calls each return a
nil error, but the fourth call — the second Stop — reaches
close(s.stopChan) on the channel the first Stop already closed and panics
instead of succeeding. -/
theorem restart_second_stop_faults :
    ((runErrs (newHTTPService "api" [])
        [.startCall, .stopCall none, .startCall]).map Prod.fst
      = some [none, none, none])
    ∧ run (newHTTPService "api" [])
        [.startCall, .stopCall none, .startCall, .stopCall none]
      = .panicked "close of closed channel" := ⟨rfl, rfl⟩

/-- C2: the spec claims no execution reaches a second close of the stop
channel because the close is guarded by the same state check as the
Running-to-Stopping transition.  On the code the guard only tests the started
flag: after Start, Stop, Start the "api" controller again passes that check
(started = true) while its one generation-0 stop channel is already closed,
so the next Stop reaches the close a second time and faults. -/
theorem stopChan_second_close_reached :
    ((run (newHTTPService "api" [])
        [.startCall, .stopCall none, .startCall]).state? = some restartedApi)
    ∧ restartedApi.started = true
    ∧ restartedApi.stopChanClosed = true
    ∧ restartedApi.stopChanGen = 0
    ∧ stop none restartedApi = .panicked "close of closed channel" :=
  ⟨rfl, rfl, rfl, rfl, rfl⟩

/-- C3: the spec claims every public operation returns an ordinary error
value and never panics, for every input and call sequence.  On the code the
second Stop of the sequence Start, Stop, Start, Stop panics (close of closed
channel) instead of returning an error value. -/
theorem public_operation_panics_on_restart :
    ((run (newHTTPService "api" [])
        [.startCall, .stopCall none, .startCall, .stopCall none]).isPanic = true)
    ∧ (stop none restartedApi).isPanic = true := ⟨rfl, rfl⟩

/-- C6: Start on a controller that is not Stopped (started = true) fails with
the AlreadyStarted error and performs no side effect: the returned state is
the receiver itself, so the flag, the stop channel, the listener and the
task counters are unchanged and no task is spawned. -/
theorem startDaemon_already_started (s : HTTPService) (h : s.started = true) :
    startDaemon s = .ret (some ("service " ++ s.name ++ " already started")) s := by
  simp [startDaemon, h]

/-- C6 witness: a second consecutive Start on the running "api" controller
returns AlreadyStarted and leaves it running and unchanged. -/
theorem startDaemon_already_started_witness :
    runningApi.started = true
    ∧ startDaemon runningApi
      = .ret (some ("service " ++ runningApi.name ++ " already started"))
          runningApi :=
  ⟨rfl, startDaemon_already_started runningApi rfl⟩

/-- C7: Stop on a controller that is not Running (started = false) fails with
the NotRunning error and performs no side effect: the returned state is the
receiver itself, so the stop channel is not closed and the listener is not
touched, whatever the environment's shutdown outcome would have been. -/
theorem stop_not_running (e0 : Option String) (s : HTTPService)
    (h : s.started = false) :
    stop e0 s = .ret (some ("service " ++ s.name ++ " not started")) s := by
  simp [stop, h]

/-- C7 witness: Stop before any Start on a freshly constructed service
returns NotRunning and changes nothing. -/
theorem stop_not_running_witness :
    (newHTTPService "api" []).started = false
    ∧ stop none (newHTTPService "api" [])
      = .ret (some ("service " ++ (newHTTPService "api" []).name ++ " not started"))
          (newHTTPService "api" []) :=
  ⟨rfl, stop_not_running none (newHTTPService "api" []) rfl⟩

/-- C8: Health returns a nil error iff the controller's state is Running
(started = true) and otherwise the NotRunning error, and in both branches it
returns the receiver unchanged — it is a pure read that changes no field. -/
theorem health_iff_running (s : HTTPService) :
    health s
      = .ret (if s.started then none
              else some ("service " ++ s.name ++ " is not running")) s
    ∧ (health s = .ret none s ↔ s.started = true) := by
  by_cases h : s.started = true
  · simp [health, h]
  · simp [health, h]

/-- C4 counterexample: the claim says a failed bind makes Start surface a
BindFailed error and return without spawning the tasks.  On the code Start
does not wait for, nor observe, the bind outcome: for the fresh "api"
controller StartDaemon returns a nil error while the listener is not bound
and after having spawned both tasks, and when the serving goroutine then
fails to bind, the run of Start followed by the failed bind still surfaces
only nil errors and ends with the listener unbound. -/
theorem startDaemon_no_bindFailed :
    ((startDaemon (newHTTPService "api" [])).err? = some none)
    ∧ ((startDaemon (newHTTPService "api" [])).state?.map
        (fun s => (s.serveTasks, s.watcherTasks, s.listenerBound))
      = some (1, 1, false))
    ∧ ((runErrs (newHTTPService "api" []) [.startCall, .serveRan false]).map
        (fun p => (p.1, p.2.listenerBound)) = some ([none, none], false)) :=
  ⟨rfl, rfl, rfl⟩

/-- C4 amended: Start never observes the bind outcome.  On any controller in
the Stopped state it returns a nil error immediately after setting the
started flag and spawning the serving and watcher tasks — before any bind —
and a failed bind inside the serving task changes nothing and surfaces no
error to any caller: no BindFailed error exists, and no partially-opened
listener is left behind because on bind failure the listener is never
bound. -/
theorem startDaemon_returns_before_bind (s : HTTPService)
    (h : s.started = false) :
    startDaemon s
      = .ret none
          { s with
            started := true
            serveTasks := s.serveTasks + 1
            watcherTasks := s.watcherTasks + 1 }
    ∧ (∀ s', serveTask false s' = s') := by
  constructor
  · simp [startDaemon, h]
  · intro s'
    rfl

/-- C4 amended, witness: the fresh "api" controller, which is not started,
gets a nil error from StartDaemon together with the spawned tasks, and a
failed bind changes nothing. -/
theorem startDaemon_returns_before_bind_witness :
    (newHTTPService "api" []).started = false
    ∧ (startDaemon (newHTTPService "api" [])
        = .ret none
            { newHTTPService "api" [] with
              started := true
              serveTasks := (newHTTPService "api" []).serveTasks + 1
              watcherTasks := (newHTTPService "api" []).watcherTasks + 1 }
      ∧ (∀ s', serveTask false s' = s')) :=
  ⟨rfl, startDaemon_returns_before_bind (newHTTPService "api" []) rfl⟩

/-- C5: Stop invoked in the Running state (started, with the stop channel
not yet closed): when the environment's graceful shutdown fails with some
cause, the call returns the ShutdownError wrapping that cause, and when the
drain succeeds it returns a nil error; in both cases the controller ends in
the Stopped state with the listener closed — the shutdown is terminal and
not retried. -/
theorem stop_running_terminal (e0 : Option String) (s : HTTPService)
    (hs : s.started = true) (hc : s.stopChanClosed = false) :
    stop e0 s
      = .ret (e0.map (fun cause =>
            "error shutting down service " ++ s.name ++ ": " ++ cause))
          (stoppedFrom s)
    ∧ (stoppedFrom s).started = false
    ∧ (stoppedFrom s).listenerBound = false := by
  refine ⟨?_, rfl, rfl⟩
  cases e0 <;> simp [stop, hs, hc]

/-- C5 witness: stopping the running "api" controller while the drain times
out returns the wrapped ShutdownError and still lands in Stopped with the
listener closed. -/
theorem stop_running_terminal_witness :
    runningApi.started = true
    ∧ runningApi.stopChanClosed = false
    ∧ (stop (some "context deadline exceeded") runningApi
        = .ret ((some "context deadline exceeded").map (fun cause =>
              "error shutting down service " ++ runningApi.name ++ ": " ++ cause))
            (stoppedFrom runningApi)
      ∧ (stoppedFrom runningApi).started = false
      ∧ (stoppedFrom runningApi).listenerBound = false) :=
  ⟨rfl, rfl,
    stop_running_terminal (some "context deadline exceeded") runningApi rfl rfl⟩

/-- C9: the spec claims that triggering the external cancellation signal
after any successful Start drives the controller to the same end state as an
explicit Stop (Stopped, listener closed), the two being interchangeable
triggers.  On the code this fails after a restart: the second Start of the
sequence Start, Stop, Start returned a nil error (a successful Start), but
the watcher it spawned exited at once on the already-closed stop channel, so
triggering the external cancellation is ignored — the controller stays
started, not Stopped — while an explicit Stop panics instead of stopping it:
the two triggers are not interchangeable there and cancellation does not
produce the Stopped end state. -/
theorem cancel_not_equiv_stop_after_restart :
    ((runErrs (newHTTPService "api" [])
        [.startCall, .stopCall none, .startCall]).map Prod.fst
      = some [none, none, none])
    ∧ ((run (newHTTPService "api" [])
        [.startCall, .stopCall none, .startCall]).state? = some restartedApi)
    ∧ onExternalCancel none restartedApi = .ret none restartedApi
    ∧ restartedApi.started = true
    ∧ stop none restartedApi = .panicked "close of closed channel" :=
  ⟨rfl, rfl, rfl, rfl, rfl⟩

/-- C10: the stop channel is allocated exactly once, in NewHTTPService
(generation 0), and no operation ever replaces or re-creates it: every state
reachable by any event sequence still holds the generation-0 channel, and
every state reachable from a state whose channel a Stop has closed —
including after any later Start — still holds the same, already-closed
original channel. -/
theorem stopChan_allocated_once (nm : String) (opts : List HTTPOption)
    (evs evs2 : List Event) (s' s'' : HTTPService)
    (h : (run (newHTTPService nm opts) evs).state? = some s')
    (hclosed : s'.stopChanClosed = true)
    (h2 : (run s' evs2).state? = some s'') :
    s'.stopChanGen = 0 ∧ s''.stopChanGen = 0 ∧ s''.stopChanClosed = true := by
  obtain ⟨hg, -⟩ := run_stopChan evs _ s' h
  have hg0 : s'.stopChanGen = 0 := hg.trans (newHTTPService_lifecycle nm opts).2.1
  obtain ⟨hg2, hmono⟩ := run_stopChan evs2 s' s'' h2
  exact ⟨hg0, hg2.trans hg0, hmono hclosed⟩

/-- C10 witness: after Start then Stop the "api" controller is in the
concrete stopped state with its channel closed, and the state reached by a
further Start still holds the generation-0, already-closed channel. -/
theorem stopChan_allocated_once_witness :
    ((run (newHTTPService "api" []) [.startCall, .stopCall none]).state?
      = some stoppedApi)
    ∧ stoppedApi.stopChanClosed = true
    ∧ ((run stoppedApi [.startCall]).state? = some restartedApi)
    ∧ (stoppedApi.stopChanGen = 0 ∧ restartedApi.stopChanGen = 0
      ∧ restartedApi.stopChanClosed = true) :=
  ⟨rfl, rfl, rfl,
    stopChan_allocated_once "api" [] [.startCall, .stopCall none] [.startCall]
      stoppedApi restartedApi rfl rfl rfl⟩

end GoCore
